import Mathlib

/-!
Shallow embedding of `LegrandPCBv17/backend/sequencer.py`, the final
dual-station sequencing engine (Orchestrator Loop, Station State Machine,
Micro-Plan Runner, Verdict Mailbox, Control Plane).

Conventions used throughout:
* Python machine integers are modelled as `Int`.
* `threading.Event` objects are modelled by their boolean set/clear state.
* The plan-executor backend is abstracted by an oracle `env : String → Bool`
  giving the success/failure outcome that `_run_micro_plan` returns for each
  issued plan name; the poll logic inside `_run_micro_plan` itself is
  embedded separately as `runMicroPlanPoll`.
* Sleeps are recorded in milliseconds; elapsed time in the poll is abstracted
  to the numbers compared by the code.
* Logging is modelled by returning the logged strings.
-/

/-- Whitespace characters removed by Python `str.strip()`. -/
def pyIsSpace (c : Char) : Bool :=
  c = ' ' || c = '\t' || c = '\n' || c = '\r' || c = '\x0b' || c = '\x0c'

/-- Python `str.strip()`: drop whitespace from both ends. -/
def pyStrip (s : String) : String :=
  String.mk (((s.data.dropWhile pyIsSpace).reverse.dropWhile pyIsSpace).reverse)

/-- Python `str.upper()` on one character (ASCII range, which is all the
tokens of the engine use). -/
def pyUpperChar (c : Char) : Char :=
  if 'a' ≤ c && c ≤ 'z' then Char.ofNat (c.toNat - 32) else c

/-- Python `str.upper()`. -/
def pyUpper (s : String) : String := String.mk (s.data.map pyUpperChar)

/-- Does `pat` occur at the head of the character list? -/
def charsStartWith : List Char → List Char → Bool
  | [], _ => true
  | _ :: _, [] => false
  | p :: ps, c :: cs => p = c && charsStartWith ps cs

/-- Does `pat` occur anywhere in the character list? -/
def charsContain (pat : List Char) : List Char → Bool
  | [] => charsStartWith pat []
  | c :: cs => charsStartWith pat (c :: cs) || charsContain pat cs

/-- Python `pat in s` (substring test). -/
def strContains (s pat : String) : Bool := charsContain pat.data s.data

/-- Replace every occurrence of `pat` (non-empty) by `rep`, fuel-bounded by
the input length so the recursion is structural. -/
def replaceAllAux (pat rep : List Char) : Nat → List Char → List Char
  | 0, s => s
  | fuel + 1, s =>
    match s with
    | [] => []
    | c :: cs =>
      if !pat.isEmpty && charsStartWith pat s then
        rep ++ replaceAllAux pat rep fuel (s.drop pat.length)
      else c :: replaceAllAux pat rep fuel cs

/-- Python `fmt.format(slot=slot)` for format strings whose only field is
the literal `\x7bslot\x7d`: every occurrence is replaced by the decimal slot
number. -/
def formatSlot (fmt : String) (slot : Int) : String :=
  String.mk (replaceAllAux "\x7bslot\x7d".data (toString slot).data fmt.data.length fmt.data)

/-- `SequencerConfig` (sequencer.py lines 18–39), with its dataclass
defaults. Timeouts are seconds. -/
structure SeqConfig where
  total_slots1 : Int := 1
  plan_open_machine1 : String := "OpenMachine"
  plan_close_machine1 : String := "CloseMachine"
  plan_pick_fmt1 : String := "PickFromTray_\x7bslot\x7d"
  plan_place_pass_fmt1 : String := "PlaceToOutputPass"
  plan_place_fail_fmt1 : String := "PlaceToOutputFail"
  total_slots2 : Int := 1
  plan_open_machine2 : String := "OpenMachine"
  plan_close_machine2 : String := "CloseMachine"
  plan_pick_fmt2 : String := "PickFromTray_\x7bslot\x7d"
  plan_place_pass_fmt2 : String := "PlaceToOutputPass"
  plan_place_fail_fmt2 : String := "PlaceToOutputFail"
  plan_timeout_s : Nat := 120
  recover_timeout_s : Nat := 45
  test_timeout_s : Nat := 900
deriving DecidableEq

/-- The mutable state of a `Sequencer` instance: the fields written in
`__init__` (lines 63–94) plus the per-machine slot counters
`current_slot1/2` (created lazily in `_worker`, lines 245–246, and in
`reset`). -/
structure SeqState where
  cfg : SeqConfig
  current_slot : Int
  current_step : Int
  preamble_done : Bool
  fault : Bool
  plan_done_evt : Bool
  fault_evt : Bool
  stop_flag : Bool
  user_pause : Bool
  tester_done_evt1 : Bool
  tester_commready1 : Bool
  tester_result1 : Option String
  tester_operating1 : Bool
  tester_loaded1 : Bool
  awaiting_result1 : Bool
  tester_done_evt2 : Bool
  tester_commready2 : Bool
  tester_result2 : Option String
  tester_operating2 : Bool
  tester_loaded2 : Bool
  awaiting_result2 : Bool
  current_slot1 : Int
  current_slot2 : Int
deriving DecidableEq

/-- Construction-time field values (`__init__`, lines 63–94).
`current_slot1/2` take the `getattr(self, _, 1)` default value 1 used the
first time `_worker` runs. -/
def initSeq (cfg : SeqConfig) : SeqState where
  cfg := cfg
  current_slot := 1
  current_step := 0
  preamble_done := false
  fault := false
  plan_done_evt := false
  fault_evt := false
  stop_flag := false
  user_pause := false
  tester_done_evt1 := false
  tester_commready1 := false
  tester_result1 := none
  tester_operating1 := false
  tester_loaded1 := false
  awaiting_result1 := false
  tester_done_evt2 := false
  tester_commready2 := false
  tester_result2 := none
  tester_operating2 := false
  tester_loaded2 := false
  awaiting_result2 := false
  current_slot1 := 1
  current_slot2 := 1

/-- The default configuration instance used at the call sites. -/
def defaultCfg : SeqConfig := {}

/-- Verdict normalization of `external_test_complete` (lines 395–396):
`v = (verdict or "").strip().upper()`, then any token containing `PASS`
maps to `PASS`, else any containing `FAIL` maps to `FAIL`, else the token
is kept as-is. -/
def normalizeVerdict (verdict : String) : String :=
  let v := pyUpper (pyStrip verdict)
  if strContains v "PASS" then "PASS"
  else if strContains v "FAIL" then "FAIL"
  else v

/-- `external_test_complete` (lines 394–415): normalize the token and
deliver it to the station mailbox, discarding it when the station is not
awaiting a result. Returns the new state and the logged lines. -/
def external_test_complete (s : SeqState) (machine_id : Int) (verdict : String) :
    SeqState × List String :=
  let v := normalizeVerdict verdict
  if machine_id = 1 then
    if !s.awaiting_result1 then (s, ["[M1] Ignored result (not awaiting)"])
    else
      ({ s with
          awaiting_result1 := false
          tester_result1 := some v
          tester_done_evt1 := true
          tester_operating1 := false },
       ["[M1] External test result: " ++ v])
  else if machine_id = 2 then
    if !s.awaiting_result2 then (s, ["[M2] Ignored result (not awaiting)"])
    else
      ({ s with
          awaiting_result2 := false
          tester_result2 := some v
          tester_done_evt2 := true
          tester_operating2 := false },
       ["[M2] External test result: " ++ v])
  else (s, [])

/-- `reset` (lines 207–233). Note which fields it touches: it clears the
flags/events, the per-machine results, operating/loaded flags and slot
counters, and the legacy counters — it does NOT touch `awaiting_result1/2`
or `tester_commready1/2` (nor the config). -/
def reset (s : SeqState) : SeqState :=
  { s with
    fault := false
    plan_done_evt := false
    fault_evt := false
    user_pause := false
    stop_flag := false
    tester_done_evt1 := false
    tester_done_evt2 := false
    tester_result1 := none
    tester_result2 := none
    tester_operating1 := false
    tester_operating2 := false
    tester_loaded1 := false
    tester_loaded2 := false
    current_slot1 := 1
    current_slot2 := 1
    current_slot := 1
    current_step := 0
    preamble_done := false }

/-- The dictionary returned by `get_state` (lines 199–205); `running` is
whether the worker thread is alive, supplied by the caller context. -/
structure GetStateOut where
  slot : Int
  step : Int
  running : Bool
  preamble_done : Bool
deriving DecidableEq

/-- `get_state` (lines 199–205). -/
def get_state (s : SeqState) (running : Bool) : GetStateOut :=
  ⟨s.current_slot, s.current_step, running, s.preamble_done⟩

/-- `_recover` (lines 457–460): logs that human intervention is required
and returns `False`; it performs no state change and issues no plan.
Result: (return value, state afterwards, plans issued, logged lines). -/
def seq_recover (s : SeqState) : Bool × SeqState × List String × List String :=
  (false, s,
   ([], ["Recovery blocked: requires human intervention (no auto clear / no auto enable)."]))

/-- One poll iteration of `_run_micro_plan` (lines 435–455), the decision
taken from the condition flags in the order of the code: fault event, plan-done
event (success unless stop was requested), elapsed-time timeout (with a
best-effort `backend.stop()`), stop flag, else keep polling.
Returns (`some b` to return `b` / `none` to poll again, whether
`backend.stop()` was called). -/
def runMicroPlanPoll (plan_name : String) (timeout_s elapsed : Nat)
    (fault_evt plan_done_evt stop_flag : Bool) : Option Bool × Bool :=
  if fault_evt then (some false, false)
  else if plan_done_evt then
    if stop_flag then (some false, false) else (some true, false)
  else if timeout_s < elapsed then (some false, true)
  else if stop_flag then (some false, false)
  else (none, false)

/-- Identifier for the four guarded station transitions of the worker
loop, in its fixed scan order. -/
inductive TransId where
  | m1Unload
  | m1Load
  | m2Unload
  | m2Load
deriving DecidableEq

/-- Result of one (attempted) station transition inside a worker tick:
the state afterwards, plans issued (in order), the transition attempted,
whether a `_run_micro_plan` failure / invalid verdict broke the loop, and
worker-level log lines. -/
structure AttOut where
  state : SeqState
  plans : List String
  trans : List TransId
  failed : Bool
  logs : List String
deriving DecidableEq

/-- Guard of the MACHINE 1 UNLOAD block (lines 270–274); `isinstance(...,
str)` becomes `Option.isSome`. -/
def m1UnloadGuard (s : SeqState) : Bool :=
  s.tester_commready1 && !s.tester_operating1 && s.tester_loaded1 &&
    s.tester_result1.isSome

/-- Guard of the MACHINE 1 LOAD block (lines 299–303). -/
def m1LoadGuard (s : SeqState) : Bool :=
  s.tester_commready1 && !s.tester_operating1 && !s.tester_loaded1 &&
    decide (s.current_slot1 ≤ s.cfg.total_slots1)

/-- Guard of the MACHINE 2 UNLOAD block (lines 323–327). -/
def m2UnloadGuard (s : SeqState) : Bool :=
  s.tester_commready2 && !s.tester_operating2 && s.tester_loaded2 &&
    s.tester_result2.isSome

/-- Guard of the MACHINE 2 LOAD block (lines 349–353). -/
def m2LoadGuard (s : SeqState) : Bool :=
  s.tester_commready2 && !s.tester_operating2 && !s.tester_loaded2 &&
    decide (s.current_slot2 ≤ s.cfg.total_slots2)

/-- MACHINE 1 UNLOAD body (lines 276–296), entered when `m1UnloadGuard`
holds: open the machine, select the place plan by `result.strip().upper()`
(`PASS`/`FAIL` exactly, anything else logs an invalid-result line and
breaks), then place and clear `loaded`/`result`. The `none` arm is
unreachable under the guard. -/
def runM1Unload (env : String → Bool) (s : SeqState) : AttOut :=
  match s.tester_result1 with
  | none => ⟨s, [], [.m1Unload], false, []⟩
  | some r =>
    if !(env s.cfg.plan_open_machine1) then
      ⟨s, [s.cfg.plan_open_machine1], [.m1Unload], true, []⟩
    else
      let verdict := pyUpper (pyStrip r)
      if verdict = "PASS" then
        if !(env s.cfg.plan_place_pass_fmt1) then
          ⟨s, [s.cfg.plan_open_machine1, s.cfg.plan_place_pass_fmt1], [.m1Unload], true, []⟩
        else
          ⟨{ s with tester_loaded1 := false, tester_result1 := none },
           [s.cfg.plan_open_machine1, s.cfg.plan_place_pass_fmt1], [.m1Unload], false, []⟩
      else if verdict = "FAIL" then
        if !(env s.cfg.plan_place_fail_fmt1) then
          ⟨s, [s.cfg.plan_open_machine1, s.cfg.plan_place_fail_fmt1], [.m1Unload], true, []⟩
        else
          ⟨{ s with tester_loaded1 := false, tester_result1 := none },
           [s.cfg.plan_open_machine1, s.cfg.plan_place_fail_fmt1], [.m1Unload], false, []⟩
      else
        ⟨s, [s.cfg.plan_open_machine1], [.m1Unload], true,
         ["[M1] Invalid test result: " ++ r]⟩

/-- MACHINE 1 LOAD body (lines 305–320), entered when `m1LoadGuard` holds:
pick from the current slot, close the tester, then mark
awaiting/operating/loaded and advance the slot counter. -/
def runM1Load (env : String → Bool) (s : SeqState) : AttOut :=
  let pick := formatSlot s.cfg.plan_pick_fmt1 s.current_slot1
  if !(env pick) then ⟨s, [pick], [.m1Load], true, []⟩
  else if !(env s.cfg.plan_close_machine1) then
    ⟨s, [pick, s.cfg.plan_close_machine1], [.m1Load], true, []⟩
  else
    ⟨{ s with
        awaiting_result1 := true
        current_slot1 := s.current_slot1 + 1
        tester_operating1 := true
        tester_loaded1 := true },
     [pick, s.cfg.plan_close_machine1], [.m1Load], false, []⟩

/-- MACHINE 2 UNLOAD body (lines 329–346), mirror of machine 1. -/
def runM2Unload (env : String → Bool) (s : SeqState) : AttOut :=
  match s.tester_result2 with
  | none => ⟨s, [], [.m2Unload], false, []⟩
  | some r =>
    if !(env s.cfg.plan_open_machine2) then
      ⟨s, [s.cfg.plan_open_machine2], [.m2Unload], true, []⟩
    else
      let verdict := pyUpper (pyStrip r)
      if verdict = "PASS" then
        if !(env s.cfg.plan_place_pass_fmt2) then
          ⟨s, [s.cfg.plan_open_machine2, s.cfg.plan_place_pass_fmt2], [.m2Unload], true, []⟩
        else
          ⟨{ s with tester_loaded2 := false, tester_result2 := none },
           [s.cfg.plan_open_machine2, s.cfg.plan_place_pass_fmt2], [.m2Unload], false, []⟩
      else if verdict = "FAIL" then
        if !(env s.cfg.plan_place_fail_fmt2) then
          ⟨s, [s.cfg.plan_open_machine2, s.cfg.plan_place_fail_fmt2], [.m2Unload], true, []⟩
        else
          ⟨{ s with tester_loaded2 := false, tester_result2 := none },
           [s.cfg.plan_open_machine2, s.cfg.plan_place_fail_fmt2], [.m2Unload], false, []⟩
      else
        ⟨s, [s.cfg.plan_open_machine2], [.m2Unload], true,
         ["[M2] Invalid test result: " ++ r]⟩

/-- MACHINE 2 LOAD body (lines 355–370), mirror of machine 1. -/
def runM2Load (env : String → Bool) (s : SeqState) : AttOut :=
  let pick := formatSlot s.cfg.plan_pick_fmt2 s.current_slot2
  if !(env pick) then ⟨s, [pick], [.m2Load], true, []⟩
  else if !(env s.cfg.plan_close_machine2) then
    ⟨s, [pick, s.cfg.plan_close_machine2], [.m2Load], true, []⟩
  else
    ⟨{ s with
        awaiting_result2 := true
        current_slot2 := s.current_slot2 + 1
        tester_operating2 := true
        tester_loaded2 := true },
     [pick, s.cfg.plan_close_machine2], [.m2Load], false, []⟩

/-- Non-blocking absorption of tester completions at the top of each tick
(lines 262–267): a set done-event is cleared and `operating` dropped. -/
def drainDoneEvents (s : SeqState) : SeqState :=
  let s1 :=
    if s.tester_done_evt1 then
      { s with tester_done_evt1 := false, tester_operating1 := false }
    else s
  if s1.tester_done_evt2 then
    { s1 with tester_done_evt2 := false, tester_operating2 := false }
  else s1

/-- `m1_done` (line 373). -/
def m1_done (s : SeqState) : Bool :=
  decide (s.cfg.total_slots1 < s.current_slot1) && !s.tester_loaded1 &&
    !s.tester_operating1

/-- `m2_done` (line 374). -/
def m2_done (s : SeqState) : Bool :=
  decide (s.cfg.total_slots2 < s.current_slot2) && !s.tester_loaded2 &&
    !s.tester_operating2

/-- Observable outcome of one worker-loop tick: the state afterwards,
plans issued, transitions attempted, whether the loop broke out, how long
it slept (milliseconds), and log lines. -/
structure TickOut where
  state : SeqState
  plans : List String
  trans : List TransId
  broke : Bool
  sleptMs : Option Nat
  logs : List String
deriving DecidableEq

/-- Tail of the loop body (lines 372–381): a failed transition has already
broken out; otherwise exit when both machines are fully done, and idle for
20 ms when no transition progressed this tick. -/
def tickFinish (a : AttOut) : TickOut :=
  if a.failed then ⟨a.state, a.plans, a.trans, true, none, a.logs⟩
  else if m1_done a.state && m2_done a.state then
    ⟨a.state, a.plans, a.trans, true, none,
     a.logs ++ ["[SEQ] All slots processed for both machines — exiting."]⟩
  else if a.trans.isEmpty then ⟨a.state, a.plans, a.trans, false, some 20, a.logs⟩
  else ⟨a.state, a.plans, a.trans, false, none, a.logs⟩

/-- The four guarded blocks of the loop body (lines 269–370). Each block
is guarded by `not progressed`, so exactly the first guard that holds (on
the post-drain state) is attempted; a guard that fails leaves the state
untouched, so later guards see the same state. -/
def tickBody (env : String → Bool) (s0 : SeqState) : AttOut :=
  if m1UnloadGuard s0 then runM1Unload env s0
  else if m1LoadGuard s0 then runM1Load env s0
  else if m2UnloadGuard s0 then runM2Unload env s0
  else if m2LoadGuard s0 then runM2Load env s0
  else ⟨s0, [], [], false, []⟩

/-- One iteration of the `while not self._stop_flag` loop of `_worker`
(lines 252–381). A raised stop flag breaks out; a user pause makes the
tick one 50 ms poll of `_wait_if_user_paused` (line 420); otherwise the
tick drains completions, attempts at most one transition, and finishes
with the exit/idle checks. -/
def workerTick (env : String → Bool) (s : SeqState) : TickOut :=
  if s.stop_flag then ⟨s, [], [], true, none, []⟩
  else if s.user_pause then ⟨s, [], [], false, some 50, []⟩
  else tickFinish (tickBody env (drainDoneEvents s))

/-- Cumulative outcome of running the worker loop (not including the
`finally` cleanup): final state, all plans issued, all transitions
attempted, and whether the loop exited (rather than running out of fuel). -/
structure RunOut where
  state : SeqState
  plans : List String
  trans : List TransId
  exited : Bool
deriving DecidableEq

/-- The worker loop iterated, fuel-bounded: stops at the first tick that
breaks out. -/
def workerLoop (env : String → Bool) : Nat → SeqState → RunOut
  | 0, s => ⟨s, [], [], false⟩
  | fuel + 1, s =>
    let t := workerTick env s
    if t.broke then ⟨t.state, t.plans, t.trans, true⟩
    else
      let r := workerLoop env fuel t.state
      ⟨r.state, t.plans ++ r.plans, t.trans ++ r.trans, r.exited⟩

/-- Whole-object state: the sequencer fields plus whether the worker
thread `_th` is alive. -/
structure SysState where
  seq : SeqState
  workerAlive : Bool
deriving DecidableEq

/-- System state at construction. -/
def initSys (cfg : SeqConfig) : SysState := ⟨initSeq cfg, false⟩

/-- Result of `start_seq_worker`: the system state afterwards, whether a
new worker thread was started, whether the listeners were (re)started, and
the logged lines. -/
structure StartOut where
  sys : SysState
  startedWorker : Bool
  startedListeners : Bool
  logs : List String
deriving DecidableEq

/-- `start_seq_worker` (lines 140–160): a non-null `total_slots` first
overwrites the capacities of both stations; only then is a running worker
detected and the call rejected. Otherwise the stop flag is cleared, the
worker started and the listeners (re)started. -/
def start_seq_worker (sys : SysState) (total_slots : Option Int) : StartOut :=
  let seq :=
    match total_slots with
    | some n =>
      { sys.seq with cfg :=
          { sys.seq.cfg with total_slots1 := n, total_slots2 := n } }
    | none => sys.seq
  if sys.workerAlive then
    ⟨⟨seq, sys.workerAlive⟩, false, false, ["Sequencer already running"]⟩
  else
    let seq2 := { seq with stop_flag := false }
    ⟨⟨seq2, true⟩, true, true,
     ["Started (slot " ++ toString seq2.current_slot ++ ", step " ++
       toString seq2.current_step ++ ")"]⟩

/-- External events the engine reacts to: a worker tick, a verdict
delivery from a listener, the connectivity probe writing `commReady`
(`_test_comms`, lines 527–552, run at worker start), and the control
surface (`stop`, lines 162–173, which also sets the two wake events;
`pause`/`resume`, lines 183–187; `start_seq_worker`). -/
inductive Ev where
  | tick
  | deliver (machine_id : Int) (verdict : String)
  | comms (ok1 ok2 : Bool)
  | stopReq
  | pauseReq
  | resumeReq
  | start (total_slots : Option Int)
deriving DecidableEq

/-- Apply one event. A tick only happens while the worker is alive; a
breaking tick runs the `finally` cleanup of `_worker` (lines 383–390):
stop the listeners, `reset()`, and drop the thread. Returns the new system
state, plans issued and transitions attempted. -/
def applyEv (env : String → Bool) (sys : SysState) : Ev → SysState × List String × List TransId
  | .tick =>
    if sys.workerAlive then
      let t := workerTick env sys.seq
      if t.broke then (⟨reset t.state, false⟩, t.plans, t.trans)
      else (⟨t.state, true⟩, t.plans, t.trans)
    else (sys, [], [])
  | .deliver machine_id verdict =>
    (⟨(external_test_complete sys.seq machine_id verdict).1, sys.workerAlive⟩, [], [])
  | .comms ok1 ok2 =>
    (⟨{ sys.seq with tester_commready1 := ok1, tester_commready2 := ok2 },
      sys.workerAlive⟩, [], [])
  | .stopReq =>
    (⟨{ sys.seq with stop_flag := true, plan_done_evt := true, fault_evt := true },
      sys.workerAlive⟩, [], [])
  | .pauseReq => (⟨{ sys.seq with user_pause := true }, sys.workerAlive⟩, [], [])
  | .resumeReq => (⟨{ sys.seq with user_pause := false }, sys.workerAlive⟩, [], [])
  | .start total_slots => ((start_seq_worker sys total_slots).sys, [], [])

/-- Apply a sequence of events, accumulating plans and transitions. -/
def runEvents (env : String → Bool) (sys : SysState) : List Ev → SysState × List String × List TransId
  | [] => (sys, [], [])
  | ev :: evs =>
    let r := applyEv env sys ev
    let r2 := runEvents env r.1 evs
    (r2.1, r.2.1 ++ r2.2.1, r.2.2 ++ r2.2.2)

/-- The plan-executor oracle that reports success for every plan. -/
def envTrue : String → Bool := fun _ => true

/-- The first transition, in the fixed scan order of the loop body, whose
guard holds (as a zero/one-element list). -/
def firstEligible (s : SeqState) : List TransId :=
  if m1UnloadGuard s then [.m1Unload]
  else if m1LoadGuard s then [.m1Load]
  else if m2UnloadGuard s then [.m2Unload]
  else if m2LoadGuard s then [.m2Load]
  else []

section DrainLemmas

variable (s : SeqState)

@[simp] theorem drainDoneEvents_cfg : (drainDoneEvents s).cfg = s.cfg := by
  simp only [drainDoneEvents]; split_ifs <;> rfl

@[simp] theorem drainDoneEvents_stop_flag : (drainDoneEvents s).stop_flag = s.stop_flag := by
  simp only [drainDoneEvents]; split_ifs <;> rfl

@[simp] theorem drainDoneEvents_user_pause : (drainDoneEvents s).user_pause = s.user_pause := by
  simp only [drainDoneEvents]; split_ifs <;> rfl

@[simp] theorem drainDoneEvents_commready1 :
    (drainDoneEvents s).tester_commready1 = s.tester_commready1 := by
  simp only [drainDoneEvents]; split_ifs <;> rfl

@[simp] theorem drainDoneEvents_commready2 :
    (drainDoneEvents s).tester_commready2 = s.tester_commready2 := by
  simp only [drainDoneEvents]; split_ifs <;> rfl

@[simp] theorem drainDoneEvents_loaded1 :
    (drainDoneEvents s).tester_loaded1 = s.tester_loaded1 := by
  simp only [drainDoneEvents]; split_ifs <;> rfl

@[simp] theorem drainDoneEvents_loaded2 :
    (drainDoneEvents s).tester_loaded2 = s.tester_loaded2 := by
  simp only [drainDoneEvents]; split_ifs <;> rfl

@[simp] theorem drainDoneEvents_result1 :
    (drainDoneEvents s).tester_result1 = s.tester_result1 := by
  simp only [drainDoneEvents]; split_ifs <;> rfl

@[simp] theorem drainDoneEvents_result2 :
    (drainDoneEvents s).tester_result2 = s.tester_result2 := by
  simp only [drainDoneEvents]; split_ifs <;> rfl

@[simp] theorem drainDoneEvents_awaiting1 :
    (drainDoneEvents s).awaiting_result1 = s.awaiting_result1 := by
  simp only [drainDoneEvents]; split_ifs <;> rfl

@[simp] theorem drainDoneEvents_awaiting2 :
    (drainDoneEvents s).awaiting_result2 = s.awaiting_result2 := by
  simp only [drainDoneEvents]; split_ifs <;> rfl

@[simp] theorem drainDoneEvents_slot1 :
    (drainDoneEvents s).current_slot1 = s.current_slot1 := by
  simp only [drainDoneEvents]; split_ifs <;> rfl

@[simp] theorem drainDoneEvents_slot2 :
    (drainDoneEvents s).current_slot2 = s.current_slot2 := by
  simp only [drainDoneEvents]; split_ifs <;> rfl

@[simp] theorem drainDoneEvents_operating1 :
    (drainDoneEvents s).tester_operating1 = (!s.tester_done_evt1 && s.tester_operating1) := by
  simp only [drainDoneEvents]; split_ifs <;> simp_all

@[simp] theorem drainDoneEvents_operating2 :
    (drainDoneEvents s).tester_operating2 = (!s.tester_done_evt2 && s.tester_operating2) := by
  simp only [drainDoneEvents]; split_ifs <;> simp_all

end DrainLemmas

/-- Delivery to station 1 while it awaits a result: characterization of
`external_test_complete` on machine 1. -/
theorem etc1_delivers (s : SeqState) (t : String) (h : s.awaiting_result1 = true) :
    (external_test_complete s 1 t).1 =
      { s with
          awaiting_result1 := false
          tester_result1 := some (normalizeVerdict t)
          tester_done_evt1 := true
          tester_operating1 := false } := by
  simp [external_test_complete, h]

/-- Delivery to station 2 while it awaits a result. -/
theorem etc2_delivers (s : SeqState) (t : String) (h : s.awaiting_result2 = true) :
    (external_test_complete s 2 t).1 =
      { s with
          awaiting_result2 := false
          tester_result2 := some (normalizeVerdict t)
          tester_done_evt2 := true
          tester_operating2 := false } := by
  norm_num [external_test_complete, h]

/-- Claim C3 (confirmed): the poll of the micro-plan runner resolves, in
priority order — (1) fault pending gives a non-success with no backend
stop, even if completion has also arrived; (2) completion plus a pending
stop request gives a non-success; (3) completion without a stop gives
success; (4) elapsed time beyond the timeout calls `backend.stop()`
(best-effort) and gives a non-success; (5) with the stop flag raised the
poll never returns success, whatever else holds. -/
theorem micro_plan_poll_priority (plan_name : String) (timeout_s elapsed extra : Nat)
    (fault_evt plan_done_evt stop_flag : Bool) :
    runMicroPlanPoll plan_name timeout_s elapsed true plan_done_evt stop_flag
      = (some false, false) ∧
    runMicroPlanPoll plan_name timeout_s elapsed false true true = (some false, false) ∧
    runMicroPlanPoll plan_name timeout_s elapsed false true false = (some true, false) ∧
    runMicroPlanPoll plan_name timeout_s (timeout_s + extra + 1) false false stop_flag
      = (some false, true) ∧
    (runMicroPlanPoll plan_name timeout_s elapsed fault_evt plan_done_evt true).1
      = some false := by
  have hlt : timeout_s < timeout_s + extra + 1 := by omega
  refine ⟨rfl, rfl, rfl, by simp [runMicroPlanPoll, hlt], ?_⟩
  cases fault_evt <;> cases plan_done_evt <;> simp [runMicroPlanPoll] <;> split_ifs <;> rfl

/-- Claim C8 (confirmed): `_recover` always returns `False`, changes no
state, issues no plan (no fault clearing, no enabling, no motion), and
only logs that human intervention is required. -/
theorem recover_always_declines (s : SeqState) :
    (seq_recover s).1 = false ∧ (seq_recover s).2.1 = s ∧
    (seq_recover s).2.2.1 = [] ∧
    (seq_recover s).2.2.2 =
      ["Recovery blocked: requires human intervention (no auto clear / no auto enable)."] :=
  ⟨rfl, rfl, rfl, rfl⟩

/-- Claim C10 (confirmed): `start_seq_worker(total_slots)` with a worker
already alive starts no second worker and no listener and only logs
"Sequencer already running" — but it has already overwritten both
station capacities with the new value, and changes nothing else (in
particular the stop flag is not cleared on this path). -/
theorem start_while_running_overwrites_capacity (sys : SysState) (n : Int)
    (halive : sys.workerAlive = true) :
    (start_seq_worker sys (some n)).startedWorker = false ∧
    (start_seq_worker sys (some n)).startedListeners = false ∧
    (start_seq_worker sys (some n)).sys.workerAlive = true ∧
    (start_seq_worker sys (some n)).logs = ["Sequencer already running"] ∧
    (start_seq_worker sys (some n)).sys.seq.cfg.total_slots1 = n ∧
    (start_seq_worker sys (some n)).sys.seq.cfg.total_slots2 = n ∧
    (start_seq_worker sys (some n)).sys.seq.stop_flag = sys.seq.stop_flag ∧
    (start_seq_worker sys (some n)).sys.seq =
      { sys.seq with cfg :=
          { sys.seq.cfg with total_slots1 := n, total_slots2 := n } } := by
  simp [start_seq_worker, halive]

/-- Witness for C10 at a concrete running system and capacity 7. -/
theorem start_while_running_overwrites_capacity_w :
    (start_seq_worker ⟨initSeq defaultCfg, true⟩ (some 7)).startedWorker = false ∧
    (start_seq_worker ⟨initSeq defaultCfg, true⟩ (some 7)).startedListeners = false ∧
    (start_seq_worker ⟨initSeq defaultCfg, true⟩ (some 7)).sys.workerAlive = true ∧
    (start_seq_worker ⟨initSeq defaultCfg, true⟩ (some 7)).logs = ["Sequencer already running"] ∧
    (start_seq_worker ⟨initSeq defaultCfg, true⟩ (some 7)).sys.seq.cfg.total_slots1 = 7 ∧
    (start_seq_worker ⟨initSeq defaultCfg, true⟩ (some 7)).sys.seq.cfg.total_slots2 = 7 ∧
    (start_seq_worker ⟨initSeq defaultCfg, true⟩ (some 7)).sys.seq.stop_flag
      = (initSeq defaultCfg).stop_flag ∧
    (start_seq_worker ⟨initSeq defaultCfg, true⟩ (some 7)).sys.seq =
      { initSeq defaultCfg with cfg :=
          { (initSeq defaultCfg).cfg with total_slots1 := 7, total_slots2 := 7 } } :=
  start_while_running_overwrites_capacity ⟨initSeq defaultCfg, true⟩ 7 rfl

/-- Claim C5 (confirmed): a verdict delivered to a station whose
`awaiting_result` flag is false leaves the whole sequencer state unchanged
(in particular verdict, loaded, operating and awaiting fields — so no
unload can be triggered by it) and only logs the ignored-result line. -/
theorem stale_verdict_ignored (s : SeqState) (machine_id : Int) (verdict : String)
    (h1 : machine_id = 1 → s.awaiting_result1 = false)
    (h2 : machine_id = 2 → s.awaiting_result2 = false) :
    (external_test_complete s machine_id verdict).1 = s ∧
    (machine_id = 1 →
      (external_test_complete s machine_id verdict).2
        = ["[M1] Ignored result (not awaiting)"]) ∧
    (machine_id = 2 →
      (external_test_complete s machine_id verdict).2
        = ["[M2] Ignored result (not awaiting)"]) := by
  by_cases hm1 : machine_id = 1
  · subst hm1
    simp [external_test_complete, h1 rfl]
  · by_cases hm2 : machine_id = 2
    · subst hm2
      norm_num [external_test_complete, h2 rfl]
    · simp [external_test_complete, hm1, hm2]

/-- Witness for C5: a PASS token delivered to station 1 of a freshly
constructed sequencer (awaiting nothing) is discarded. -/
theorem stale_verdict_ignored_w :
    (external_test_complete (initSeq defaultCfg) 1 "PASS").1 = initSeq defaultCfg ∧
    ((1 : Int) = 1 →
      (external_test_complete (initSeq defaultCfg) 1 "PASS").2
        = ["[M1] Ignored result (not awaiting)"]) ∧
    ((1 : Int) = 2 →
      (external_test_complete (initSeq defaultCfg) 1 "PASS").2
        = ["[M2] Ignored result (not awaiting)"]) :=
  stale_verdict_ignored (initSeq defaultCfg) 1 "PASS" (fun _ => rfl)
    (fun h => absurd h (by decide))

/-- Claim C2, amended (corrected): `reset()` rewinds every field it
touches to its construction-time value — slot counters, loaded, operating
(testing), verdicts, the stop/pause flags and the events — but it does NOT
touch `awaiting_result1/2` (nor `tester_commready1/2`), which keep their
pre-reset values. -/
theorem reset_restores_construction_defaults (s : SeqState) :
    reset s =
      { initSeq s.cfg with
          awaiting_result1 := s.awaiting_result1
          awaiting_result2 := s.awaiting_result2
          tester_commready1 := s.tester_commready1
          tester_commready2 := s.tester_commready2 } := rfl

/-- Counterexample for C2 as stated: a state in which a prior run left
`awaiting_result1 = true` (a load completed, no verdict arrived) keeps
`awaiting_result1 = true` across `reset()`, whereas its construction-time
value is `false`. -/
theorem reset_misses_awaiting_result :
    (reset { initSeq defaultCfg with awaiting_result1 := true }).awaiting_result1 = true ∧
    (initSeq defaultCfg).awaiting_result1 = false :=
  ⟨rfl, rfl⟩

/-- Claim C1, amended (corrected): the exit path of the worker (its `finally`
block) calls `reset()`, so after any exit — stop or abort — every
`StationRuntime` field except `awaiting_result1/2` and `commReady` is
re-initialised to its construction value, the worker is gone, and
`get_state` afterwards reports the reset values (slot 1, step 0), not the
state at the moment of exit. -/
theorem worker_exit_path_resets (env : String → Bool) (sys : SysState)
    (halive : sys.workerAlive = true)
    (hbroke : (workerTick env sys.seq).broke = true) :
    (applyEv env sys .tick).1.seq = reset (workerTick env sys.seq).state ∧
    (applyEv env sys .tick).1.workerAlive = false ∧
    get_state (applyEv env sys .tick).1.seq false = ⟨1, 0, false, false⟩ ∧
    (applyEv env sys .tick).1.seq.awaiting_result1
      = (workerTick env sys.seq).state.awaiting_result1 ∧
    (applyEv env sys .tick).1.seq.awaiting_result2
      = (workerTick env sys.seq).state.awaiting_result2 := by
  simp [applyEv, halive, hbroke, reset, get_state]

/-- Witness for the amended C1 at a concrete breaking tick (stop flag
raised). -/
theorem worker_exit_path_resets_w :
    (applyEv envTrue ⟨{ initSeq defaultCfg with stop_flag := true }, true⟩ .tick).1.seq
      = reset (workerTick envTrue { initSeq defaultCfg with stop_flag := true }).state ∧
    (applyEv envTrue ⟨{ initSeq defaultCfg with stop_flag := true }, true⟩ .tick).1.workerAlive
      = false ∧
    get_state (applyEv envTrue ⟨{ initSeq defaultCfg with stop_flag := true }, true⟩ .tick).1.seq
      false = ⟨1, 0, false, false⟩ ∧
    (applyEv envTrue ⟨{ initSeq defaultCfg with stop_flag := true }, true⟩ .tick).1.seq.awaiting_result1
      = (workerTick envTrue { initSeq defaultCfg with stop_flag := true }).state.awaiting_result1 ∧
    (applyEv envTrue ⟨{ initSeq defaultCfg with stop_flag := true }, true⟩ .tick).1.seq.awaiting_result2
      = (workerTick envTrue { initSeq defaultCfg with stop_flag := true }).state.awaiting_result2 :=
  worker_exit_path_resets envTrue ⟨{ initSeq defaultCfg with stop_flag := true }, true⟩ rfl rfl

/-- Counterexample for C1 as stated: a worker that exits while the station-1
slot counter is 3 (and the legacy counter 5) does NOT keep those values:
at the moment of exit the tick still holds slot 3, but the exit path
resets it to 1, and `get_state` afterwards reports slot 1 / step 0 rather
than the last-known state. -/
theorem worker_exit_no_frame_cex :
    (workerTick envTrue
        { initSeq defaultCfg with stop_flag := true, current_slot1 := 3, current_slot := 5 }).state.current_slot1
      = 3 ∧
    (applyEv envTrue
        ⟨{ initSeq defaultCfg with stop_flag := true, current_slot1 := 3, current_slot := 5 }, true⟩
        .tick).1.seq.current_slot1 = 1 ∧
    get_state (applyEv envTrue
        ⟨{ initSeq defaultCfg with stop_flag := true, current_slot1 := 3, current_slot := 5 }, true⟩
        .tick).1.seq false = ⟨1, 0, false, false⟩ ∧
    ({ initSeq defaultCfg with stop_flag := true, current_slot1 := 3, current_slot := 5 } : SeqState).current_slot
      = 5 :=
  ⟨rfl, rfl, rfl, rfl⟩

section TransLemmas

variable (env : String → Bool) (s : SeqState)

theorem runM1Unload_trans : (runM1Unload env s).trans = [TransId.m1Unload] := by
  cases h : s.tester_result1 with
  | none => simp [runM1Unload, h]
  | some r => simp only [runM1Unload, h]; split_ifs <;> rfl

theorem runM1Load_trans : (runM1Load env s).trans = [TransId.m1Load] := by
  simp only [runM1Load]; split_ifs <;> rfl

theorem runM2Unload_trans : (runM2Unload env s).trans = [TransId.m2Unload] := by
  cases h : s.tester_result2 with
  | none => simp [runM2Unload, h]
  | some r => simp only [runM2Unload, h]; split_ifs <;> rfl

theorem runM2Load_trans : (runM2Load env s).trans = [TransId.m2Load] := by
  simp only [runM2Load]; split_ifs <;> rfl

end TransLemmas

/-- The transitions a tick body attempts are exactly the first eligible
one in scan order. -/
theorem tickBody_trans (env : String → Bool) (s0 : SeqState) :
    (tickBody env s0).trans = firstEligible s0 := by
  unfold tickBody firstEligible
  split_ifs <;>
    first
      | rfl
      | exact runM1Unload_trans env s0
      | exact runM1Load_trans env s0
      | exact runM2Unload_trans env s0
      | exact runM2Load_trans env s0

/-- When no guard holds, the tick body does nothing. -/
theorem tickBody_none (env : String → Bool) (s0 : SeqState)
    (h : firstEligible s0 = []) : tickBody env s0 = ⟨s0, [], [], false, []⟩ := by
  unfold firstEligible at h
  unfold tickBody
  split_ifs at h ⊢ <;> simp_all

theorem tickFinish_trans (a : AttOut) : (tickFinish a).trans = a.trans := by
  unfold tickFinish; split_ifs <;> rfl

theorem tickFinish_plans (a : AttOut) : (tickFinish a).plans = a.plans := by
  unfold tickFinish; split_ifs <;> rfl

theorem tickFinish_state (a : AttOut) : (tickFinish a).state = a.state := by
  unfold tickFinish; split_ifs <;> rfl

/-- The no-stop, no-pause shape of a tick. -/
theorem workerTick_run (env : String → Bool) (s : SeqState)
    (hstop : s.stop_flag = false) (hpause : s.user_pause = false) :
    workerTick env s = tickFinish (tickBody env (drainDoneEvents s)) := by
  simp [workerTick, hstop, hpause]

/-- Claim C7 (confirmed): on a tick of the loop (stop not requested, not
paused), the transitions attempted are exactly the first one — in the
fixed scan order machine-1 unload, machine-1 load, machine-2 unload,
machine-2 load — whose guard holds on the post-drain state, hence at most
one in total; and when no guard holds and the exit condition is not met,
the tick sleeps 20 ms and does not break out. -/
theorem tick_single_transition (env : String → Bool) (s : SeqState)
    (hstop : s.stop_flag = false) (hpause : s.user_pause = false) :
    (workerTick env s).trans = firstEligible (drainDoneEvents s) ∧
    (workerTick env s).trans.length ≤ 1 ∧
    (firstEligible (drainDoneEvents s) = [] →
      (m1_done (drainDoneEvents s) && m2_done (drainDoneEvents s)) = false →
      (workerTick env s).sleptMs = some 20 ∧ (workerTick env s).broke = false) := by
  have hw := workerTick_run env s hstop hpause
  refine ⟨?_, ?_, ?_⟩
  · rw [hw, tickFinish_trans, tickBody_trans]
  · rw [hw, tickFinish_trans, tickBody_trans]
    unfold firstEligible
    split_ifs <;> simp
  · intro hfe hdone
    rw [hw, tickBody_none env _ hfe]
    simp [tickFinish, hdone]

/-- Witness for C7: a freshly constructed sequencer (comm not ready, so no
guard holds, and the exit condition is not yet met) attempts no transition
and sleeps 20 ms. -/
theorem tick_single_transition_w :
    (workerTick envTrue (initSeq defaultCfg)).trans
      = firstEligible (drainDoneEvents (initSeq defaultCfg)) ∧
    (workerTick envTrue (initSeq defaultCfg)).trans.length ≤ 1 ∧
    (firstEligible (drainDoneEvents (initSeq defaultCfg)) = [] →
      (m1_done (drainDoneEvents (initSeq defaultCfg)) &&
        m2_done (drainDoneEvents (initSeq defaultCfg))) = false →
      (workerTick envTrue (initSeq defaultCfg)).sleptMs = some 20 ∧
      (workerTick envTrue (initSeq defaultCfg)).broke = false) :=
  tick_single_transition envTrue (initSeq defaultCfg) rfl rfl

/-- Machine-1 unload on a stored result that normalizes to neither `PASS`
nor `FAIL`: the machine is opened, then the invalid result is logged and
the loop broken. -/
theorem runM1Unload_invalid (env : String → Bool) (s0 : SeqState) (r : String)
    (hres : s0.tester_result1 = some r)
    (hopen : env s0.cfg.plan_open_machine1 = true)
    (hP : pyUpper (pyStrip r) ≠ "PASS") (hF : pyUpper (pyStrip r) ≠ "FAIL") :
    runM1Unload env s0 =
      ⟨s0, [s0.cfg.plan_open_machine1], [TransId.m1Unload], true,
       ["[M1] Invalid test result: " ++ r]⟩ := by
  simp [runM1Unload, hres, hopen, hP, hF]

/-- Machine-1 unload on a stored `PASS`, with both plans succeeding. -/
theorem runM1Unload_pass (env : String → Bool) (s0 : SeqState) (r : String)
    (hres : s0.tester_result1 = some r)
    (hopen : env s0.cfg.plan_open_machine1 = true)
    (hplace : env s0.cfg.plan_place_pass_fmt1 = true)
    (hP : pyUpper (pyStrip r) = "PASS") :
    runM1Unload env s0 =
      ⟨{ s0 with tester_loaded1 := false, tester_result1 := none },
       [s0.cfg.plan_open_machine1, s0.cfg.plan_place_pass_fmt1], [TransId.m1Unload],
       false, []⟩ := by
  simp [runM1Unload, hres, hopen, hplace, hP]

/-- Machine-1 unload on a stored `FAIL`, with both plans succeeding. -/
theorem runM1Unload_fail (env : String → Bool) (s0 : SeqState) (r : String)
    (hres : s0.tester_result1 = some r)
    (hopen : env s0.cfg.plan_open_machine1 = true)
    (hplace : env s0.cfg.plan_place_fail_fmt1 = true)
    (hF : pyUpper (pyStrip r) = "FAIL") :
    runM1Unload env s0 =
      ⟨{ s0 with tester_loaded1 := false, tester_result1 := none },
       [s0.cfg.plan_open_machine1, s0.cfg.plan_place_fail_fmt1], [TransId.m1Unload],
       false, []⟩ := by
  have hP : pyUpper (pyStrip r) ≠ "PASS" := by rw [hF]; decide
  simp [runM1Unload, hres, hopen, hplace, hP, hF]

/-- Machine-2 unload on a stored result that normalizes to neither `PASS`
nor `FAIL`. -/
theorem runM2Unload_invalid (env : String → Bool) (s0 : SeqState) (r : String)
    (hres : s0.tester_result2 = some r)
    (hopen : env s0.cfg.plan_open_machine2 = true)
    (hP : pyUpper (pyStrip r) ≠ "PASS") (hF : pyUpper (pyStrip r) ≠ "FAIL") :
    runM2Unload env s0 =
      ⟨s0, [s0.cfg.plan_open_machine2], [TransId.m2Unload], true,
       ["[M2] Invalid test result: " ++ r]⟩ := by
  simp [runM2Unload, hres, hopen, hP, hF]

/-- The tick that follows a verdict delivery to an awaiting, loaded,
comm-ready station 1 (no stop, no pause): the tick is exactly the
machine-1 unload block applied to the drained post-delivery state,
whose stored result is the normalized token; the config is untouched. -/
theorem tick_after_delivery1 (env : String → Bool) (s : SeqState) (t : String)
    (hstop : s.stop_flag = false) (hpause : s.user_pause = false)
    (hcomm : s.tester_commready1 = true) (hload : s.tester_loaded1 = true)
    (hawait : s.awaiting_result1 = true) :
    workerTick env (external_test_complete s 1 t).1
      = tickFinish (runM1Unload env (drainDoneEvents (external_test_complete s 1 t).1)) ∧
    (drainDoneEvents (external_test_complete s 1 t).1).tester_result1
      = some (normalizeVerdict t) ∧
    (drainDoneEvents (external_test_complete s 1 t).1).cfg = s.cfg := by
  rw [etc1_delivers s t hawait]
  refine ⟨?_, by simp, by simp⟩
  rw [workerTick_run env _ (by simp [hstop]) (by simp [hpause])]
  have hguard : m1UnloadGuard (drainDoneEvents
      { s with
          awaiting_result1 := false
          tester_result1 := some (normalizeVerdict t)
          tester_done_evt1 := true
          tester_operating1 := false }) = true := by
    simp [m1UnloadGuard, hcomm, hload]
  simp [tickBody, hguard]

/-- The tick that follows a verdict delivery to an awaiting, loaded,
comm-ready station 2 while station 1 is not comm-ready (so neither
machine-1 guard can fire): the tick is exactly the machine-2 unload
block. -/
theorem tick_after_delivery2 (env : String → Bool) (s : SeqState) (t : String)
    (hstop : s.stop_flag = false) (hpause : s.user_pause = false)
    (hcomm1 : s.tester_commready1 = false)
    (hcomm2 : s.tester_commready2 = true) (hload2 : s.tester_loaded2 = true)
    (hawait2 : s.awaiting_result2 = true) :
    workerTick env (external_test_complete s 2 t).1
      = tickFinish (runM2Unload env (drainDoneEvents (external_test_complete s 2 t).1)) ∧
    (drainDoneEvents (external_test_complete s 2 t).1).tester_result2
      = some (normalizeVerdict t) ∧
    (drainDoneEvents (external_test_complete s 2 t).1).cfg = s.cfg := by
  rw [etc2_delivers s t hawait2]
  refine ⟨?_, by simp, by simp⟩
  rw [workerTick_run env _ (by simp [hstop]) (by simp [hpause])]
  have hg1 : m1UnloadGuard (drainDoneEvents
      { s with
          awaiting_result2 := false
          tester_result2 := some (normalizeVerdict t)
          tester_done_evt2 := true
          tester_operating2 := false }) = false := by
    simp [m1UnloadGuard, hcomm1]
  have hg2 : m1LoadGuard (drainDoneEvents
      { s with
          awaiting_result2 := false
          tester_result2 := some (normalizeVerdict t)
          tester_done_evt2 := true
          tester_operating2 := false }) = false := by
    simp [m1LoadGuard, hcomm1]
  have hg3 : m2UnloadGuard (drainDoneEvents
      { s with
          awaiting_result2 := false
          tester_result2 := some (normalizeVerdict t)
          tester_done_evt2 := true
          tester_operating2 := false }) = true := by
    simp [m2UnloadGuard, hcomm2, hload2]
  simp [tickBody, hg1, hg2, hg3]

@[simp] theorem external_test_complete_cfg (s : SeqState) (mid : Int) (v : String) :
    (external_test_complete s mid v).1.cfg = s.cfg := by
  unfold external_test_complete
  split_ifs <;> rfl

/-- Claim C4 (confirmed): for each station (part 1: machine 1, part 2:
machine 2), delivering a verdict token that normalizes to neither `PASS`
nor `FAIL` while the station awaits a result makes the next tick abort
the run with the invalid-result report, and from that point the run
executes no further plan — the only plan ever issued afterwards is the
open-machine plan that necessarily precedes the verdict check inside the
unload block. -/
theorem invalid_verdict_aborts_run :
    (∀ (env : String → Bool) (s : SeqState) (t : String) (fuel : Nat),
      s.stop_flag = false → s.user_pause = false →
      s.tester_commready1 = true → s.tester_loaded1 = true →
      s.awaiting_result1 = true →
      env s.cfg.plan_open_machine1 = true →
      pyUpper (pyStrip (normalizeVerdict t)) ≠ "PASS" →
      pyUpper (pyStrip (normalizeVerdict t)) ≠ "FAIL" →
      (workerTick env (external_test_complete s 1 t).1).broke = true ∧
      ("[M1] Invalid test result: " ++ normalizeVerdict t)
        ∈ (workerTick env (external_test_complete s 1 t).1).logs ∧
      (workerLoop env (fuel + 1) (external_test_complete s 1 t).1).plans
        = [s.cfg.plan_open_machine1] ∧
      (workerLoop env (fuel + 1) (external_test_complete s 1 t).1).exited = true) ∧
    (∀ (env : String → Bool) (s : SeqState) (t : String) (fuel : Nat),
      s.stop_flag = false → s.user_pause = false →
      s.tester_commready1 = false →
      s.tester_commready2 = true → s.tester_loaded2 = true →
      s.awaiting_result2 = true →
      env s.cfg.plan_open_machine2 = true →
      pyUpper (pyStrip (normalizeVerdict t)) ≠ "PASS" →
      pyUpper (pyStrip (normalizeVerdict t)) ≠ "FAIL" →
      (workerTick env (external_test_complete s 2 t).1).broke = true ∧
      ("[M2] Invalid test result: " ++ normalizeVerdict t)
        ∈ (workerTick env (external_test_complete s 2 t).1).logs ∧
      (workerLoop env (fuel + 1) (external_test_complete s 2 t).1).plans
        = [s.cfg.plan_open_machine2] ∧
      (workerLoop env (fuel + 1) (external_test_complete s 2 t).1).exited = true) := by
  constructor
  · intro env s t fuel hstop hpause hcomm hload hawait hopen hbadP hbadF
    obtain ⟨htick, hres, hcfg⟩ := tick_after_delivery1 env s t hstop hpause hcomm hload hawait
    have hopen0 : env (drainDoneEvents (external_test_complete s 1 t).1).cfg.plan_open_machine1
        = true := by rw [hcfg]; exact hopen
    have hrun := runM1Unload_invalid env _ _ hres hopen0 hbadP hbadF
    have htick2 : workerTick env (external_test_complete s 1 t).1 =
        ⟨drainDoneEvents (external_test_complete s 1 t).1,
         [s.cfg.plan_open_machine1], [TransId.m1Unload], true, none,
         ["[M1] Invalid test result: " ++ normalizeVerdict t]⟩ := by
      rw [htick, hrun]
      simp [tickFinish, hcfg]
    refine ⟨by rw [htick2], by rw [htick2]; simp, ?_, ?_⟩ <;>
      simp [workerLoop, htick2]
  · intro env s t fuel hstop hpause hcomm1 hcomm2 hload2 hawait2 hopen hbadP hbadF
    obtain ⟨htick, hres, hcfg⟩ :=
      tick_after_delivery2 env s t hstop hpause hcomm1 hcomm2 hload2 hawait2
    have hopen0 : env (drainDoneEvents (external_test_complete s 2 t).1).cfg.plan_open_machine2
        = true := by rw [hcfg]; exact hopen
    have hrun := runM2Unload_invalid env _ _ hres hopen0 hbadP hbadF
    have htick2 : workerTick env (external_test_complete s 2 t).1 =
        ⟨drainDoneEvents (external_test_complete s 2 t).1,
         [s.cfg.plan_open_machine2], [TransId.m2Unload], true, none,
         ["[M2] Invalid test result: " ++ normalizeVerdict t]⟩ := by
      rw [htick, hrun]
      simp [tickFinish, hcfg]
    refine ⟨by rw [htick2], by rw [htick2]; simp, ?_, ?_⟩ <;>
      simp [workerLoop, htick2]

/-- Witness for C4: the token "ERROR_9" delivered to each awaiting,
loaded, comm-ready station aborts the next tick with the invalid-result
report, and the open plan is the only plan the rest of the run issues. -/
theorem invalid_verdict_aborts_run_w :
    ((workerTick envTrue (external_test_complete
        { initSeq defaultCfg with
            tester_commready1 := true, tester_loaded1 := true, awaiting_result1 := true }
        1 "ERROR_9").1).broke = true ∧
      ("[M1] Invalid test result: " ++ normalizeVerdict "ERROR_9")
        ∈ (workerTick envTrue (external_test_complete
            { initSeq defaultCfg with
                tester_commready1 := true, tester_loaded1 := true, awaiting_result1 := true }
            1 "ERROR_9").1).logs ∧
      (workerLoop envTrue (0 + 1) (external_test_complete
          { initSeq defaultCfg with
              tester_commready1 := true, tester_loaded1 := true, awaiting_result1 := true }
          1 "ERROR_9").1).plans
        = [({ initSeq defaultCfg with
              tester_commready1 := true, tester_loaded1 := true, awaiting_result1 := true } :
            SeqState).cfg.plan_open_machine1] ∧
      (workerLoop envTrue (0 + 1) (external_test_complete
          { initSeq defaultCfg with
              tester_commready1 := true, tester_loaded1 := true, awaiting_result1 := true }
          1 "ERROR_9").1).exited = true) ∧
    ((workerTick envTrue (external_test_complete
        { initSeq defaultCfg with
            tester_commready2 := true, tester_loaded2 := true, awaiting_result2 := true }
        2 "ERROR_9").1).broke = true ∧
      ("[M2] Invalid test result: " ++ normalizeVerdict "ERROR_9")
        ∈ (workerTick envTrue (external_test_complete
            { initSeq defaultCfg with
                tester_commready2 := true, tester_loaded2 := true, awaiting_result2 := true }
            2 "ERROR_9").1).logs ∧
      (workerLoop envTrue (0 + 1) (external_test_complete
          { initSeq defaultCfg with
              tester_commready2 := true, tester_loaded2 := true, awaiting_result2 := true }
          2 "ERROR_9").1).plans
        = [({ initSeq defaultCfg with
              tester_commready2 := true, tester_loaded2 := true, awaiting_result2 := true } :
            SeqState).cfg.plan_open_machine2] ∧
      (workerLoop envTrue (0 + 1) (external_test_complete
          { initSeq defaultCfg with
              tester_commready2 := true, tester_loaded2 := true, awaiting_result2 := true }
          2 "ERROR_9").1).exited = true) :=
  ⟨invalid_verdict_aborts_run.1 envTrue
      { initSeq defaultCfg with
          tester_commready1 := true, tester_loaded1 := true, awaiting_result1 := true }
      "ERROR_9" 0 rfl rfl rfl rfl rfl rfl (by decide) (by decide),
   invalid_verdict_aborts_run.2 envTrue
      { initSeq defaultCfg with
          tester_commready2 := true, tester_loaded2 := true, awaiting_result2 := true }
      "ERROR_9" 0 rfl rfl rfl rfl rfl rfl rfl (by decide) (by decide)⟩

/-- Counterexample for C6 as stated: a reachable state (start with
capacity 1, comm probe succeeds, one loading tick, then delivery of the
token "ERROR_9" to the awaiting station) in which the verdict field holds
`some "ERROR_9"` — neither empty nor PASS nor FAIL. -/
theorem verdict_not_enum_cex :
    (runEvents envTrue (initSys defaultCfg)
      [.start (some 1), .comms true true, .tick, .deliver 1 "ERROR_9"]).1.seq.tester_result1
      = some "ERROR_9" ∧
    ¬(some "ERROR_9" = (none : Option String) ∨
      some "ERROR_9" = some "PASS" ∨ some "ERROR_9" = some "FAIL") :=
  ⟨rfl, by decide⟩

/-- Claim C6, amended (corrected): after a delivery to awaiting station 1
the verdict field holds the normalized token — `PASS`/`FAIL` for
recognized tokens, the raw normalized token otherwise (so the field is
not confined to \x7bempty, PASS, FAIL\x7d); a PASS/FAIL verdict is
consumed by the unload of the next tick and cleared back to empty
(with `loaded` dropped), while an unrecognized one aborts the run when
consumed. -/
theorem verdict_lifecycle (env : String → Bool) (s : SeqState) (t : String)
    (hstop : s.stop_flag = false) (hpause : s.user_pause = false)
    (hcomm : s.tester_commready1 = true) (hload : s.tester_loaded1 = true)
    (hawait : s.awaiting_result1 = true)
    (henv : ∀ p, env p = true) :
    (external_test_complete s 1 t).1.tester_result1 = some (normalizeVerdict t) ∧
    (pyUpper (pyStrip (normalizeVerdict t)) = "PASS" ∨
        pyUpper (pyStrip (normalizeVerdict t)) = "FAIL" →
      (workerTick env (external_test_complete s 1 t).1).state.tester_result1 = none ∧
      (workerTick env (external_test_complete s 1 t).1).state.tester_loaded1 = false) ∧
    (pyUpper (pyStrip (normalizeVerdict t)) ≠ "PASS" →
      pyUpper (pyStrip (normalizeVerdict t)) ≠ "FAIL" →
      (workerTick env (external_test_complete s 1 t).1).broke = true) := by
  obtain ⟨htick, hres, hcfg⟩ := tick_after_delivery1 env s t hstop hpause hcomm hload hawait
  refine ⟨by rw [etc1_delivers s t hawait], ?_, ?_⟩
  · intro hPF
    rcases hPF with hP | hF
    · have hrun := runM1Unload_pass env _ _ hres
        (by rw [hcfg]; exact henv _) (by rw [hcfg]; exact henv _) hP
      rw [htick, hrun, tickFinish_state]
      exact ⟨rfl, rfl⟩
    · have hrun := runM1Unload_fail env _ _ hres
        (by rw [hcfg]; exact henv _) (by rw [hcfg]; exact henv _) hF
      rw [htick, hrun, tickFinish_state]
      exact ⟨rfl, rfl⟩
  · intro hbadP hbadF
    have hrun := runM1Unload_invalid env _ _ hres (by rw [hcfg]; exact henv _) hbadP hbadF
    rw [htick, hrun]
    simp [tickFinish]

/-- Witness for the amended C6: a "pass" token (normalizing to PASS) on a
loaded, awaiting station is stored normalized, then consumed and cleared
by the next tick. -/
theorem verdict_lifecycle_w :
    (external_test_complete
        { initSeq defaultCfg with
            tester_commready1 := true, tester_loaded1 := true, awaiting_result1 := true }
        1 " pass ").1.tester_result1 = some (normalizeVerdict " pass ") ∧
    (pyUpper (pyStrip (normalizeVerdict " pass ")) = "PASS" ∨
        pyUpper (pyStrip (normalizeVerdict " pass ")) = "FAIL" →
      (workerTick envTrue (external_test_complete
          { initSeq defaultCfg with
              tester_commready1 := true, tester_loaded1 := true, awaiting_result1 := true }
          1 " pass ").1).state.tester_result1 = none ∧
      (workerTick envTrue (external_test_complete
          { initSeq defaultCfg with
              tester_commready1 := true, tester_loaded1 := true, awaiting_result1 := true }
          1 " pass ").1).state.tester_loaded1 = false) ∧
    (pyUpper (pyStrip (normalizeVerdict " pass ")) ≠ "PASS" →
      pyUpper (pyStrip (normalizeVerdict " pass ")) ≠ "FAIL" →
      (workerTick envTrue (external_test_complete
          { initSeq defaultCfg with
              tester_commready1 := true, tester_loaded1 := true, awaiting_result1 := true }
          1 " pass ").1).broke = true) :=
  verdict_lifecycle envTrue
    { initSeq defaultCfg with
        tester_commready1 := true, tester_loaded1 := true, awaiting_result1 := true }
    " pass " rfl rfl rfl rfl rfl (fun _ => rfl)

/-- Machine-2 unload never touches machine-1 fields or the config. -/
theorem runM2Unload_m1fields (env : String → Bool) (s : SeqState) :
    (runM2Unload env s).state.cfg = s.cfg ∧
    (runM2Unload env s).state.tester_loaded1 = s.tester_loaded1 ∧
    (runM2Unload env s).state.tester_operating1 = s.tester_operating1 ∧
    (runM2Unload env s).state.current_slot1 = s.current_slot1 := by
  cases h : s.tester_result2 with
  | none => simp [runM2Unload, h]
  | some r =>
    simp only [runM2Unload, h]
    split_ifs <;> simp

/-- Machine-2 load never touches machine-1 fields or the config. -/
theorem runM2Load_m1fields (env : String → Bool) (s : SeqState) :
    (runM2Load env s).state.cfg = s.cfg ∧
    (runM2Load env s).state.tester_loaded1 = s.tester_loaded1 ∧
    (runM2Load env s).state.tester_operating1 = s.tester_operating1 ∧
    (runM2Load env s).state.current_slot1 = s.current_slot1 := by
  simp only [runM2Load]
  split_ifs <;> simp

/-- A verdict delivery never touches `loaded`, the slot counters or the
config, and can only clear (never raise) the machine-1 `operating` flag. -/
theorem etc_m1fields (s : SeqState) (mid : Int) (v : String) :
    (external_test_complete s mid v).1.tester_loaded1 = s.tester_loaded1 ∧
    ((external_test_complete s mid v).1.tester_operating1 = s.tester_operating1 ∨
      (external_test_complete s mid v).1.tester_operating1 = false) ∧
    (external_test_complete s mid v).1.current_slot1 = s.current_slot1 := by
  unfold external_test_complete
  split_ifs <;> simp

/-- Station-1 "configured empty" invariant: capacity 0, nothing loaded or
operating on it, slot counter at least 1 (hence already past capacity). -/
def M1Drained (s : SeqState) : Prop :=
  s.cfg.total_slots1 = 0 ∧ s.tester_loaded1 = false ∧
    s.tester_operating1 = false ∧ 1 ≤ s.current_slot1

/-- When neither machine-1 guard holds, the tick body leaves machine-1
fields and the config unchanged and attempts no machine-1 transition. -/
theorem tickBody_m1fields (env : String → Bool) (s0 : SeqState)
    (hg1 : m1UnloadGuard s0 = false) (hg2 : m1LoadGuard s0 = false) :
    (tickBody env s0).state.cfg = s0.cfg ∧
    (tickBody env s0).state.tester_loaded1 = s0.tester_loaded1 ∧
    (tickBody env s0).state.tester_operating1 = s0.tester_operating1 ∧
    (tickBody env s0).state.current_slot1 = s0.current_slot1 ∧
    TransId.m1Unload ∉ (tickBody env s0).trans ∧
    TransId.m1Load ∉ (tickBody env s0).trans := by
  unfold tickBody
  split_ifs with h1 h2 h3 h4
  · exact absurd h1 (by simp [hg1])
  · exact absurd h2 (by simp [hg2])
  · have h5 := runM2Unload_m1fields env s0
    have ht := runM2Unload_trans env s0
    exact ⟨h5.1, h5.2.1, h5.2.2.1, h5.2.2.2, by rw [ht]; decide, by rw [ht]; decide⟩
  · have h5 := runM2Load_m1fields env s0
    have ht := runM2Load_trans env s0
    exact ⟨h5.1, h5.2.1, h5.2.2.1, h5.2.2.2, by rw [ht]; decide, by rw [ht]; decide⟩
  · simp

/-- A worker tick preserves `M1Drained` and attempts no machine-1
transition under it. -/
theorem workerTick_m1drained (env : String → Bool) (s : SeqState) (h : M1Drained s) :
    M1Drained (workerTick env s).state ∧
    TransId.m1Unload ∉ (workerTick env s).trans ∧
    TransId.m1Load ∉ (workerTick env s).trans := by
  obtain ⟨hc, hl, ho, hs⟩ := h
  by_cases hstop : s.stop_flag = true
  · simp [workerTick, hstop, M1Drained, hc, hl, ho, hs]
  · have hstop2 : s.stop_flag = false := by simpa using hstop
    by_cases hp : s.user_pause = true
    · simp [workerTick, hstop2, hp, M1Drained, hc, hl, ho, hs]
    · have hp2 : s.user_pause = false := by simpa using hp
      rw [workerTick_run env s hstop2 hp2]
      have hg1 : m1UnloadGuard (drainDoneEvents s) = false := by
        simp [m1UnloadGuard, hl]
      have hg2 : m1LoadGuard (drainDoneEvents s) = false := by
        simp only [m1LoadGuard, drainDoneEvents_commready1, drainDoneEvents_operating1,
          drainDoneEvents_loaded1, drainDoneEvents_slot1, drainDoneEvents_cfg]
        simp
        intros
        omega
      have hb := tickBody_m1fields env (drainDoneEvents s) hg1 hg2
      rw [tickFinish_state, tickFinish_trans]
      refine ⟨⟨?_, ?_, ?_, ?_⟩, hb.2.2.2.2.1, hb.2.2.2.2.2⟩
      · rw [hb.1]; simp [hc]
      · rw [hb.2.1]; simp [hl]
      · rw [hb.2.2.1]; simp [drainDoneEvents_operating1, ho]
      · rw [hb.2.2.2.1]; simp [hs]

/-- Every event preserves `M1Drained` (as long as any capacity overwrite
carried by a start call is 0) and produces no machine-1 transition. -/
theorem applyEv_m1drained (env : String → Bool) (sys : SysState) (ev : Ev)
    (h : M1Drained sys.seq)
    (hev : ∀ n, ev = Ev.start (some n) → n = 0) :
    M1Drained (applyEv env sys ev).1.seq ∧
    TransId.m1Unload ∉ (applyEv env sys ev).2.2 ∧
    TransId.m1Load ∉ (applyEv env sys ev).2.2 := by
  cases ev with
  | tick =>
    by_cases ha : sys.workerAlive = true
    · have hw := workerTick_m1drained env sys.seq h
      by_cases hb : (workerTick env sys.seq).broke = true
      · have happ : applyEv env sys .tick =
            (⟨reset (workerTick env sys.seq).state, false⟩,
             (workerTick env sys.seq).plans, (workerTick env sys.seq).trans) := by
          simp [applyEv, ha, hb]
        rw [happ]
        exact ⟨⟨hw.1.1, rfl, rfl, le_refl 1⟩, hw.2.1, hw.2.2⟩
      · have hb2 : (workerTick env sys.seq).broke = false := by simpa using hb
        have happ : applyEv env sys .tick =
            (⟨(workerTick env sys.seq).state, true⟩,
             (workerTick env sys.seq).plans, (workerTick env sys.seq).trans) := by
          simp [applyEv, ha, hb2]
        rw [happ]
        exact ⟨hw.1, hw.2.1, hw.2.2⟩
    · have ha2 : sys.workerAlive = false := by simpa using ha
      have happ : applyEv env sys .tick = (sys, [], []) := by simp [applyEv, ha2]
      rw [happ]
      exact ⟨h, by simp, by simp⟩
  | deliver mid v =>
    obtain ⟨hc, hl, ho, hs⟩ := h
    obtain ⟨e2, e3, e4⟩ := etc_m1fields sys.seq mid v
    simp only [applyEv]
    refine ⟨⟨?_, ?_, ?_, ?_⟩, by simp, by simp⟩
    · rw [external_test_complete_cfg]; exact hc
    · rw [e2]; exact hl
    · rcases e3 with e3 | e3
      · rw [e3]; exact ho
      · exact e3
    · rw [e4]; exact hs
  | comms ok1 ok2 =>
    simp only [applyEv]
    exact ⟨⟨h.1, h.2.1, h.2.2.1, h.2.2.2⟩, by simp, by simp⟩
  | stopReq =>
    simp only [applyEv]
    exact ⟨⟨h.1, h.2.1, h.2.2.1, h.2.2.2⟩, by simp, by simp⟩
  | pauseReq =>
    simp only [applyEv]
    exact ⟨⟨h.1, h.2.1, h.2.2.1, h.2.2.2⟩, by simp, by simp⟩
  | resumeReq =>
    simp only [applyEv]
    exact ⟨⟨h.1, h.2.1, h.2.2.1, h.2.2.2⟩, by simp, by simp⟩
  | start ts =>
    obtain ⟨hc, hl, ho, hs⟩ := h
    simp only [applyEv]
    refine ⟨?_, by simp, by simp⟩
    cases ts with
    | none =>
      simp only [start_seq_worker]
      split_ifs <;> exact ⟨hc, hl, ho, hs⟩
    | some n =>
      have hn : n = 0 := hev n rfl
      subst hn
      simp only [start_seq_worker]
      split_ifs <;> exact ⟨rfl, hl, ho, hs⟩

/-- Any event trace from an `M1Drained` state (whose start events carry
capacity 0 if any) keeps the station drained and never attempts a
machine-1 transition. -/
theorem runEvents_m1drained (env : String → Bool) (evs : List Ev) (sys : SysState)
    (h : M1Drained sys.seq)
    (hevs : ∀ n, Ev.start (some n) ∈ evs → n = 0) :
    M1Drained (runEvents env sys evs).1.seq ∧
    TransId.m1Unload ∉ (runEvents env sys evs).2.2 ∧
    TransId.m1Load ∉ (runEvents env sys evs).2.2 := by
  induction evs generalizing sys with
  | nil => exact ⟨h, by simp [runEvents], by simp [runEvents]⟩
  | cons ev evs ih =>
    have hev : ∀ n, ev = Ev.start (some n) → n = 0 := by
      intro n hn
      exact hevs n (by rw [hn]; exact List.mem_cons_self _ _)
    have hstep := applyEv_m1drained env sys ev h hev
    have hrest := ih (applyEv env sys ev).1 hstep.1
      (fun n hn => hevs n (List.mem_cons_of_mem _ hn))
    refine ⟨hrest.1, ?_, ?_⟩ <;>
      simp only [runEvents, List.mem_append] <;>
      rintro (hmem | hmem)
    · exact hstep.2.1 hmem
    · exact hrest.2.1 hmem
    · exact hstep.2.2 hmem
    · exact hrest.2.2 hmem

/-- With both capacities 0 and nothing loaded or operating, a tick (not
paused) immediately takes the both-machines-done exit: no plan, no
transition. -/
theorem workerTick_allzero (env : String → Bool) (s : SeqState)
    (h10 : s.cfg.total_slots1 = 0) (h20 : s.cfg.total_slots2 = 0)
    (hl1 : s.tester_loaded1 = false) (hl2 : s.tester_loaded2 = false)
    (ho1 : s.tester_operating1 = false) (ho2 : s.tester_operating2 = false)
    (hs1 : 1 ≤ s.current_slot1) (hs2 : 1 ≤ s.current_slot2)
    (hpause : s.user_pause = false) :
    (workerTick env s).broke = true ∧ (workerTick env s).plans = [] ∧
    (workerTick env s).trans = [] := by
  by_cases hstop : s.stop_flag = true
  · simp [workerTick, hstop]
  · have hstop2 : s.stop_flag = false := by simpa using hstop
    rw [workerTick_run env s hstop2 hpause]
    have hg1 : m1UnloadGuard (drainDoneEvents s) = false := by
      simp [m1UnloadGuard, hl1]
    have hg2 : m1LoadGuard (drainDoneEvents s) = false := by
      simp only [m1LoadGuard, drainDoneEvents_commready1, drainDoneEvents_operating1,
        drainDoneEvents_loaded1, drainDoneEvents_slot1, drainDoneEvents_cfg]
      simp
      intros
      omega
    have hg3 : m2UnloadGuard (drainDoneEvents s) = false := by
      simp [m2UnloadGuard, hl2]
    have hg4 : m2LoadGuard (drainDoneEvents s) = false := by
      simp only [m2LoadGuard, drainDoneEvents_commready2, drainDoneEvents_operating2,
        drainDoneEvents_loaded2, drainDoneEvents_slot2, drainDoneEvents_cfg]
      simp
      intros
      omega
    have hfe : firstEligible (drainDoneEvents s) = [] := by
      simp [firstEligible, hg1, hg2, hg3, hg4]
    rw [tickBody_none env _ hfe]
    have hm1 : m1_done (drainDoneEvents s) = true := by
      simp only [m1_done, drainDoneEvents_cfg, drainDoneEvents_slot1,
        drainDoneEvents_loaded1, drainDoneEvents_operating1]
      simp [hl1, ho1]
      omega
    have hm2 : m2_done (drainDoneEvents s) = true := by
      simp only [m2_done, drainDoneEvents_cfg, drainDoneEvents_slot2,
        drainDoneEvents_loaded2, drainDoneEvents_operating2]
      simp [hl2, ho2]
      omega
    simp [tickFinish, hm1, hm2]

/-- An all-capacity-0 worker run exits on its first tick, with no plan
executed and no transition attempted. -/
theorem workerLoop_allzero (env : String → Bool) (s : SeqState) (fuel : Nat)
    (h10 : s.cfg.total_slots1 = 0) (h20 : s.cfg.total_slots2 = 0)
    (hl1 : s.tester_loaded1 = false) (hl2 : s.tester_loaded2 = false)
    (ho1 : s.tester_operating1 = false) (ho2 : s.tester_operating2 = false)
    (hs1 : 1 ≤ s.current_slot1) (hs2 : 1 ≤ s.current_slot2)
    (hpause : s.user_pause = false) :
    (workerLoop env (fuel + 1) s).plans = [] ∧
    (workerLoop env (fuel + 1) s).trans = [] ∧
    (workerLoop env (fuel + 1) s).exited = true := by
  have hb := workerTick_allzero env s h10 h20 hl1 hl2 ho1 ho2 hs1 hs2 hpause
  simp [workerLoop, hb.1, hb.2.1, hb.2.2]

/-- Claim C9 (confirmed). Part 1: a station configured with capacity 0
(machine 1 here; the loop never attempts a machine-1 transition, and only
those transitions issue machine-1 plans) stays in its Drained condition —
slot index past capacity, not loaded, not testing — across every event
trace, whatever the other station does. Part 2: a run with both stations
at capacity 0 terminates on its first tick with zero plan executions. -/
theorem capacity_zero_drained :
    (∀ (env : String → Bool) (sys : SysState) (evs : List Ev),
      sys.seq.cfg.total_slots1 = 0 → sys.seq.tester_loaded1 = false →
      sys.seq.tester_operating1 = false → 1 ≤ sys.seq.current_slot1 →
      (∀ n, Ev.start (some n) ∈ evs → n = 0) →
      TransId.m1Unload ∉ (runEvents env sys evs).2.2 ∧
      TransId.m1Load ∉ (runEvents env sys evs).2.2 ∧
      (runEvents env sys evs).1.seq.cfg.total_slots1
        < (runEvents env sys evs).1.seq.current_slot1 ∧
      (runEvents env sys evs).1.seq.tester_loaded1 = false ∧
      (runEvents env sys evs).1.seq.tester_operating1 = false) ∧
    (∀ (env : String → Bool) (s : SeqState) (fuel : Nat),
      s.cfg.total_slots1 = 0 → s.cfg.total_slots2 = 0 →
      s.tester_loaded1 = false → s.tester_loaded2 = false →
      s.tester_operating1 = false → s.tester_operating2 = false →
      1 ≤ s.current_slot1 → 1 ≤ s.current_slot2 → s.user_pause = false →
      (workerLoop env (fuel + 1) s).plans = [] ∧
      (workerLoop env (fuel + 1) s).trans = [] ∧
      (workerLoop env (fuel + 1) s).exited = true) := by
  constructor
  · intro env sys evs h0 hl ho hs hevs
    obtain ⟨⟨hc, hl2, ho2, hs2⟩, hm1, hm2⟩ :=
      runEvents_m1drained env evs sys ⟨h0, hl, ho, hs⟩ hevs
    exact ⟨hm1, hm2, by omega, hl2, ho2⟩
  · intro env s fuel h10 h20 hl1 hl2 ho1 ho2 hs1 hs2 hp
    exact workerLoop_allzero env s fuel h10 h20 hl1 hl2 ho1 ho2 hs1 hs2 hp

/-- Witness for C9: machine 1 at capacity 0 through a comm probe, a tick
and a (stale) delivery; and a full run with both capacities 0. -/
theorem capacity_zero_drained_w :
    (TransId.m1Unload ∉ (runEvents envTrue (initSys { defaultCfg with total_slots1 := 0 })
        [.comms true true, .tick, .deliver 1 "PASS"]).2.2 ∧
      TransId.m1Load ∉ (runEvents envTrue (initSys { defaultCfg with total_slots1 := 0 })
        [.comms true true, .tick, .deliver 1 "PASS"]).2.2 ∧
      (runEvents envTrue (initSys { defaultCfg with total_slots1 := 0 })
        [.comms true true, .tick, .deliver 1 "PASS"]).1.seq.cfg.total_slots1
        < (runEvents envTrue (initSys { defaultCfg with total_slots1 := 0 })
        [.comms true true, .tick, .deliver 1 "PASS"]).1.seq.current_slot1 ∧
      (runEvents envTrue (initSys { defaultCfg with total_slots1 := 0 })
        [.comms true true, .tick, .deliver 1 "PASS"]).1.seq.tester_loaded1 = false ∧
      (runEvents envTrue (initSys { defaultCfg with total_slots1 := 0 })
        [.comms true true, .tick, .deliver 1 "PASS"]).1.seq.tester_operating1 = false) ∧
    ((workerLoop envTrue (0 + 1)
        (initSeq { defaultCfg with total_slots1 := 0, total_slots2 := 0 })).plans = [] ∧
      (workerLoop envTrue (0 + 1)
        (initSeq { defaultCfg with total_slots1 := 0, total_slots2 := 0 })).trans = [] ∧
      (workerLoop envTrue (0 + 1)
        (initSeq { defaultCfg with total_slots1 := 0, total_slots2 := 0 })).exited = true) :=
  ⟨capacity_zero_drained.1 envTrue (initSys { defaultCfg with total_slots1 := 0 })
      [.comms true true, .tick, .deliver 1 "PASS"] rfl rfl rfl (le_refl 1)
      (by intro n hn; simp at hn),
   capacity_zero_drained.2 envTrue
      (initSeq { defaultCfg with total_slots1 := 0, total_slots2 := 0 }) 0
      rfl rfl rfl rfl rfl rfl (le_refl 1) (le_refl 1) rfl⟩
